import Mathlib

/-!
Shallow embedding of `wikibaseintegrator/wbi_login.py`: the `Login` class
(credential manager), its constructor with three authentication strategies,
the token cache (`generate_edit_credentials`, `get_edit_token`,
`get_edit_cookie`) and the OAuth continuation (`continue_oauth`).

External collaborators (HTTP transport responses, the mwoauth handshake
provider, console input, the wall clock) are passed as explicit parameters:
each network response is a value of a response type, and each `time.time()`
sample the code takes is an explicit `Int` argument.
-/

namespace WbiLogin

/-- Exceptions the Python code can raise: a transport-level failure from
`requests`, a `KeyError` from indexing a JSON dict, a `TypeError` (e.g. from
`str.split` with a `bytes` separator), the module's own `LoginError`, and the
mwoauth handshake rejection (OAuthException). -/
inductive PyErr where
  | requestError
  | keyError (key : String)
  | typeError (msg : String)
  | loginError (msg : String)
  | handshakeError
deriving DecidableEq, Repr

/-- Outcome of a Python call: a normal return or a raised exception. -/
inductive PyResult (α : Type) where
  | ok (a : α)
  | err (e : PyErr)
deriving DecidableEq, Repr

/-- The session cookie jar (`self.s.cookies`), a set of name/value pairs. -/
abbrev Cookies := List (String × String)

/-- A dynamically typed Python value that is either a `str` or a `bytes`
object (the content of a `bytes` object is modelled as a `String`). -/
inductive PyStr where
  | str (s : String)
  | bytes (b : String)
deriving DecidableEq, Repr

/-- Result of `handshaker.initiate`: the authorization redirect URL and the
temporary request token (lines 85-87). -/
structure OAuthInit where
  redirect : String
  request_token : String
deriving DecidableEq, Repr

/-- The `OAuth1` signing credential built in `continue_oauth` (lines 216-219)
and attached to the session as `self.s.auth`. -/
structure OAuth1Sig where
  client_key : String
  client_secret : String
  resource_owner_key : String
  resource_owner_secret : String
deriving DecidableEq, Repr

/-- State of one `Login` instance: the attributes set by `__init__` and
mutated by `generate_edit_credentials`, `get_edit_token`, `get_edit_cookie`
and `continue_oauth`. `oauth` is `some` exactly when the OAuth branch of the
constructor ran (otherwise `self.redirect` / `self.request_token` do not
exist); `session_auth` models `self.s.auth`; `cookies` models
`self.s.cookies`. -/
structure Login where
  mediawiki_api_url : String
  mediawiki_index_url : String
  edit_token : String
  instantiation_time : Int
  token_renew_period : Int
  consumer_key : Option String
  consumer_secret : Option String
  response_qs : Option PyStr
  callback_url : String
  user_agent : String
  cookies : Cookies
  oauth : Option OAuthInit
  session_auth : Option OAuth1Sig
deriving DecidableEq, Repr

/-- Response of the edit-token fetch issued by `generate_edit_credentials`
(lines 161-162): the GET may raise, or return JSON without the
`csrftoken` field (the GET still happened, so the session cookie jar may have
been updated), or return the token together with the updated cookie jar. -/
inductive FetchResult where
  | transportError
  | missingField (newCookies : Cookies)
  | ok (csrftoken : String) (newCookies : Cookies)
deriving DecidableEq, Repr

/-- Model of `Login.generate_edit_credentials` (lines 151-164): issue the
token query, assign `self.edit_token` from
`response.json()['query']['tokens']['csrftoken']` and return
`self.s.cookies`. If the GET raises, nothing changed; if the `csrftoken`
field is absent, the `KeyError` is raised while evaluating the right-hand
side, so `self.edit_token` is untouched. `self.instantiation_time` is never
touched here. -/
def generate_edit_credentials (resp : FetchResult) (l : Login) :
    Login × PyResult Cookies :=
  match resp with
  | .transportError => (l, .err .requestError)
  | .missingField cs => ({ l with cookies := cs }, .err (.keyError "csrftoken"))
  | .ok tok cs =>
      let l' := { l with edit_token := tok, cookies := cs }
      (l', .ok l'.cookies)

/-- The staleness test of `get_edit_token` (line 182):
`not self.edit_token or (time.time() - self.instantiation_time) > self.token_renew_period`.
An empty string is falsy in Python. -/
def token_stale (l : Login) (now : Int) : Bool :=
  l.edit_token == "" || decide (now - l.instantiation_time > l.token_renew_period)

/-- The staleness test of `get_edit_cookie` (line 171):
`(time.time() - self.instantiation_time) > self.token_renew_period`.
Unlike line 182 there is no check of `self.edit_token`. -/
def cookie_stale (l : Login) (now : Int) : Bool :=
  decide (now - l.instantiation_time > l.token_renew_period)

/-- Result of an accessor call: the state it leaves behind, the returned
value or raised exception, and how many times `generate_edit_credentials`
was invoked during the call. -/
structure Outcome (α : Type) where
  state : Login
  result : PyResult α
  refreshes : Nat
deriving DecidableEq, Repr

/-- Model of `Login.get_edit_token` (lines 177-186). `now` is the
`time.time()` sample of the staleness test, `tAfter` the sample assigned to
`self.instantiation_time` after a refresh; `resp` is the transport's answer
to the token query should one be issued. -/
def get_edit_token (now tAfter : Int) (resp : FetchResult) (l : Login) :
    Outcome String :=
  if token_stale l now then
    match generate_edit_credentials resp l with
    | (l', .err e) => ⟨l', .err e, 1⟩
    | (l', .ok _) => ⟨{ l' with instantiation_time := tAfter }, .ok l'.edit_token, 1⟩
  else ⟨l, .ok l.edit_token, 0⟩

/-- Model of `Login.get_edit_cookie` (lines 166-175), parameters as in
`get_edit_token`. -/
def get_edit_cookie (now tAfter : Int) (resp : FetchResult) (l : Login) :
    Outcome Cookies :=
  if cookie_stale l now then
    match generate_edit_credentials resp l with
    | (l', .err e) => ⟨l', .err e, 1⟩
    | (l', .ok _) => ⟨{ l' with instantiation_time := tAfter }, .ok l'.cookies, 1⟩
  else ⟨l, .ok l.cookies, 0⟩

/-! ### The constructor (`Login.__init__`, lines 21-149) -/

/-- The process-wide configuration dict `wbi_config.config`, restricted to
the keys `__init__` reads or writes. `USER_AGENT_DEFAULT` is mutated in
place at line 69. -/
structure Config where
  MEDIAWIKI_API_URL : String
  MEDIAWIKI_INDEX_URL : String
  USER_AGENT_DEFAULT : String
deriving DecidableEq, Repr

/-- Python truthiness of an optional string argument: `None` and the empty
string are falsy. -/
def truthy : Option String → Bool
  | none => false
  | some s => s != ""

/-- Model of Python's `str.casefold`, as the character sequence of the
casefolded string. Full Unicode casefolding agrees with lowercasing on the
ASCII strings user names and user-agent strings are made of. -/
def casefold (s : String) : List Char :=
  s.data.map Char.toLower

/-- Python's `needle in hay` on strings: contiguous substring test. -/
def pyIn (needle hay : List Char) : Bool :=
  decide (needle <:+: hay)

/-- The `clientlogin` block of a clientlogin response (lines 115-120):
the fields the code reads. -/
structure ClientLoginBlock where
  status : String
  messagecode : String
  message : String
  username : String
deriving DecidableEq, Repr

/-- The `error` block of a clientlogin response (lines 121-123). -/
structure ErrorBlock where
  code : String
  info : String
deriving DecidableEq, Repr

/-- JSON body returned by the `action=clientlogin` POST: it may carry a
`clientlogin` block, an `error` block, both, or neither. -/
structure ClientLoginResult where
  clientlogin : Option ClientLoginBlock
  error : Option ErrorBlock
deriving DecidableEq, Repr

/-- The `login` block returned by the `action=login` POST (lines 139-142). -/
structure PasswordLoginBlock where
  result : String
  lgusername : String
deriving DecidableEq, Repr

/-- The arguments of `Login.__init__` that the embedded control flow reads
(`debug` only prints and is omitted). Optional strings default to `None`. -/
structure InitArgs where
  user : Option String
  pwd : Option String
  mediawiki_api_url : Option String
  mediawiki_index_url : Option String
  token_renew_period : Int
  use_clientlogin : Bool
  consumer_key : Option String
  consumer_secret : Option String
  callback_url : String
  user_agent : Option String
deriving DecidableEq, Repr

/-- Responses of the external collaborators consulted during construction:
the clock sample at line 56, the login-token fetch (line 98), the
clientlogin POST (line 110), the password-login POST (line 134), the edit
token fetch of the final `generate_edit_credentials()` (line 149), and the
`handshaker.initiate` call of the OAuth branch (line 87). -/
structure InitEnv where
  now : Int
  login_token : PyResult String
  clientlogin_result : ClientLoginResult
  login_result : PasswordLoginBlock
  token_fetch : FetchResult
  handshake_init : PyResult OAuthInit
deriving DecidableEq, Repr

/-- Network requests the constructor can issue, in order, used to observe
which path ran. -/
inductive Action where
  | oauth_init_request
  | login_token_fetch
  | clientlogin_post
  | login_post
  | edit_token_fetch
deriving DecidableEq, Repr

/-- Shared tail of the two non-OAuth branches (line 149): call
`generate_edit_credentials()`; on failure construction raises, on success
the instance is returned. `self.instantiation_time` keeps the value sampled
at line 56. -/
def construct_finish (cfg : Config) (acts : List Action) (l : Login)
    (fetch : FetchResult) : Config × List Action × PyResult Login :=
  match generate_edit_credentials fetch l with
  | (_, .err e) => (cfg, acts ++ [.edit_token_fetch], .err e)
  | (l', .ok _) => (cfg, acts ++ [.edit_token_fetch], .ok l')

/-- Lines 64-70: user-agent selection. If `user_agent` is truthy it is used
as given; otherwise, when a truthy `user` is not already contained
(casefolded) in the process-wide `USER_AGENT_DEFAULT`, that shared config
value is mutated in place by appending " (User:<user>)", and the possibly
mutated value becomes the instance's user agent. Returns the configuration
after the step and the chosen user-agent string. -/
def construct_user_agent (cfg : Config) (a : InitArgs) : Config × String :=
  if truthy a.user_agent then (cfg, a.user_agent.getD "")
  else
    let appendUA :=
      match a.user with
      | some u => u != "" && !(pyIn (casefold u) (casefold cfg.USER_AGENT_DEFAULT))
      | none => false
    let cfg1 :=
      if appendUA then
        { cfg with USER_AGENT_DEFAULT :=
            cfg.USER_AGENT_DEFAULT ++ " (User:" ++ (a.user.getD "") ++ ")" }
      else cfg
    (cfg1, cfg1.USER_AGENT_DEFAULT)

/-- Model of `Login.__init__` (lines 21-149). Returns the configuration
after construction (line 69 may have mutated `USER_AGENT_DEFAULT`), the
list of network requests issued, and the constructed instance or the raised
exception. Endpoint defaulting uses `is None` (lines 48-49), so an empty
string argument is kept as given; cookie updates of the login POSTs
themselves are not modelled (no claim reads them before the edit-token
fetch, which supplies the jar). -/
def Login.construct (cfg : Config) (a : InitArgs) (env : InitEnv) :
    Config × List Action × PyResult Login :=
  let api := a.mediawiki_api_url.getD cfg.MEDIAWIKI_API_URL
  let index := a.mediawiki_index_url.getD cfg.MEDIAWIKI_INDEX_URL
  -- lines 64-70: user-agent selection, possibly mutating the shared config
  let cfg1 := (construct_user_agent cfg a).1
  let ua := (construct_user_agent cfg a).2
  let base : Login :=
    { mediawiki_api_url := api
      mediawiki_index_url := index
      edit_token := ""
      instantiation_time := env.now
      token_renew_period := a.token_renew_period
      consumer_key := a.consumer_key
      consumer_secret := a.consumer_secret
      response_qs := none
      callback_url := a.callback_url
      user_agent := ua
      cookies := []
      oauth := none
      session_auth := none }
  if truthy a.consumer_key && truthy a.consumer_secret then
    -- lines 75-87: OAuth initiation only; no login request, no edit token
    match env.handshake_init with
    | .err e => (cfg1, [.oauth_init_request], .err e)
    | .ok oi => (cfg1, [.oauth_init_request], .ok { base with oauth := some oi })
  else
    -- line 98: fetch a login token
    match env.login_token with
    | .err e => (cfg1, [.login_token_fetch], .err e)
    | .ok _ =>
      if a.use_clientlogin then
        -- lines 100-123
        let acts : List Action := [.login_token_fetch, .clientlogin_post]
        match env.clientlogin_result.clientlogin with
        | some cl =>
          if cl.status != "PASS" then
            (cfg1, acts, .err (.loginError
              ("Login failed (" ++ cl.messagecode ++ "). Message: '" ++ cl.message ++ "'")))
          else construct_finish cfg1 acts base env.token_fetch
        | none =>
          match env.clientlogin_result.error with
          | some e =>
            (cfg1, acts, .err (.loginError
              ("Login failed (" ++ e.code ++ "). Message: '" ++ e.info ++ "'")))
          | none => (cfg1, acts, .err (.keyError "error"))
      else
        -- lines 125-147
        let acts : List Action := [.login_token_fetch, .login_post]
        if env.login_result.result != "Success" then
          (cfg1, acts, .err (.loginError
            ("Login failed. Reason: '" ++ env.login_result.result ++ "'")))
        else construct_finish cfg1 acts base env.token_fetch

/-! ### OAuth continuation (`Login.continue_oauth`, lines 195-222) -/

/-- The permanent access token returned by `handshaker.complete`. -/
structure AccessToken where
  key : String
  secret : String
deriving DecidableEq, Repr

/-- State of the OAuth handshake provider (mwoauth `Handshaker` together
with the identity server behind it): which temporary request tokens are
still exchangeable, and the access token it hands out. -/
structure HandshakeEnv where
  valid_tokens : List String
  access_token : AccessToken
deriving DecidableEq, Repr

/-- Modelled from the spec: the handshake provider interface of §6
(`Complete(requestToken, verifierQueryString) → accessToken`); the mwoauth
library is an external collaborator, not part of this repository. A
successful exchange consumes the request token; completing with a consumed
(or never-issued) request token is rejected with a `HandshakeError`
(§4.1 CompleteOAuth, §8). Verifier checking beyond token validity is
abstracted away. -/
def Handshaker.complete (h : HandshakeEnv) (request_token : String)
    (_response_qs : String) : HandshakeEnv × PyResult AccessToken :=
  if h.valid_tokens.contains request_token then
    ({ h with valid_tokens := h.valid_tokens.erase request_token },
      .ok h.access_token)
  else (h, .err .handshakeError)

/-- Python truthiness of `self.response_qs` at line 205: `None`, the empty
`str` and the empty `bytes` are falsy. -/
def pyFalsy : Option PyStr → Bool
  | none => true
  | some (.str s) => s == ""
  | some (.bytes b) => b == ""

/-- Lines 203-207: `self.response_qs = oauth_callback_data`, and if that is
falsy, replace it by the console input — which `input()` returns as a
`str`, never as `bytes`. -/
def resolve_response_qs (d : Option PyStr) (interactive_input : String) : PyStr :=
  match d with
  | none => .str interactive_input
  | some v => if pyFalsy (some v) then .str interactive_input else v

/-- Line 210: `self.response_qs.split(b'?')[-1]`. On a `bytes` value the
split succeeds and `[-1]` takes the last piece; on a `str` value Python
raises `TypeError` because the separator is `bytes`. -/
def split_bytes_last : PyStr → PyResult String
  | .str _ => .err (.typeError "must be str or None, not bytes")
  | .bytes b => .ok ((b.splitOn "?").getLastD b)

/-- Result of a `continue_oauth` call: handshake-provider state, instance
state, return value or exception, and the number of
`generate_edit_credentials` calls made. -/
structure OAuthCall where
  hs : HandshakeEnv
  state : Login
  result : PyResult Unit
  refreshes : Nat
deriving DecidableEq, Repr

/-- Model of `Login.continue_oauth` (lines 195-222). `interactive_input` is
what `input("Callback URL: ")` would return if consulted; `token_fetch` the
transport's answer to the final `generate_edit_credentials` call. On a
non-OAuth instance `self.request_token` does not exist (`AttributeError`,
rendered as a `keyError`). -/
def continue_oauth (hs : HandshakeEnv) (interactive_input : String)
    (token_fetch : FetchResult) (l : Login) (oauth_callback_data : Option PyStr) :
    OAuthCall :=
  let qsVal := resolve_response_qs oauth_callback_data interactive_input
  let l2 := { l with response_qs := some qsVal }
  match split_bytes_last qsVal with
  | .err e => ⟨hs, l2, .err e, 0⟩
  | .ok qs =>
    match l2.oauth with
    | none => ⟨hs, l2, .err (.keyError "request_token"), 0⟩
    | some oi =>
      match Handshaker.complete hs oi.request_token qs with
      | (hs', .err e) => ⟨hs', l2, .err e, 0⟩
      | (hs', .ok atk) =>
        let l3 := { l2 with session_auth := some (OAuth1Sig.mk
          (l2.consumer_key.getD "") (l2.consumer_secret.getD "") atk.key atk.secret) }
        match generate_edit_credentials token_fetch l3 with
        | (l4, .err e) => ⟨hs', l4, .err e, 1⟩
        | (l4, .ok _) => ⟨hs', l4, .ok (), 1⟩

/-! ### Helper lemmas and sample states -/

/-- A plain password-login instance, for concrete evaluations. -/
def mkLogin (tok : String) (t0 T : Int) : Login :=
  { mediawiki_api_url := "https://w/api.php"
    mediawiki_index_url := "https://w/index.php"
    edit_token := tok
    instantiation_time := t0
    token_renew_period := T
    consumer_key := none
    consumer_secret := none
    response_qs := none
    callback_url := "oob"
    user_agent := "WBI"
    cookies := []
    oauth := none
    session_auth := none }

/-- An OAuth instance right after construction (handshake initiated with
request token `rt`, no edit token yet). -/
def mkOAuthLogin (rt : String) (t0 T : Int) : Login :=
  { mkLogin "" t0 T with
    consumer_key := some "ck"
    consumer_secret := some "cs"
    oauth := some ⟨"https://w/authorize", rt⟩ }

lemma generate_edit_credentials_time (resp : FetchResult) (l : Login) :
    (generate_edit_credentials resp l).1.instantiation_time = l.instantiation_time := by
  cases resp <;> simp [generate_edit_credentials]

lemma generate_edit_credentials_err_token (resp : FetchResult) (l : Login)
    (h : resp = .transportError ∨ ∃ cs, resp = .missingField cs) :
    (generate_edit_credentials resp l).1.edit_token = l.edit_token
    ∧ ∃ e, (generate_edit_credentials resp l).2 = .err e := by
  rcases h with h | ⟨cs, h⟩ <;> subst h <;> simp [generate_edit_credentials]

/-- Once an edit token has been issued (non-empty string), the two
accessors test the same staleness condition. -/
lemma token_stale_of_issued (l : Login) (now : Int) (h : l.edit_token ≠ "") :
    token_stale l now = cookie_stale l now := by
  unfold token_stale cookie_stale
  have : (l.edit_token == "") = false := by
    exact beq_eq_false_iff_ne.mpr h
  simp [this]

/-- The configuration returned by construction is exactly the result of the
user-agent step: no later branch touches it. -/
lemma construct_config (cfg : Config) (a : InitArgs) (env : InitEnv) :
    (Login.construct cfg a env).1 = (construct_user_agent cfg a).1 := by
  unfold Login.construct construct_finish
  dsimp only
  (repeat' split) <;> rfl

/-- No path through `continue_oauth` writes `self.instantiation_time`. -/
lemma continue_oauth_time (hs : HandshakeEnv) (ii : String) (tf : FetchResult)
    (l : Login) (d : Option PyStr) :
    (continue_oauth hs ii tf l d).state.instantiation_time = l.instantiation_time := by
  unfold continue_oauth
  dsimp only
  split
  · simp
  · split
    · simp
    · split
      · simp
      · split
        · rename_i l4 e heq
          have h1 := congrArg (fun p => p.1.instantiation_time) heq
          simp [generate_edit_credentials_time] at h1
          simpa using h1.symm
        · rename_i l4 c heq
          have h1 := congrArg (fun p => p.1.instantiation_time) heq
          simp [generate_edit_credentials_time] at h1
          simpa using h1.symm

lemma get_edit_token_refreshes (now tAfter : Int) (resp : FetchResult) (l : Login) :
    (get_edit_token now tAfter resp l).refreshes = if token_stale l now then 1 else 0 := by
  unfold get_edit_token
  split
  · split <;> rfl
  · rfl

lemma get_edit_cookie_refreshes (now tAfter : Int) (resp : FetchResult) (l : Login) :
    (get_edit_cookie now tAfter resp l).refreshes = if cookie_stale l now then 1 else 0 := by
  unfold get_edit_cookie
  split
  · split <;> rfl
  · rfl

/-! ### Claims -/

/-- C1, counterexample: on a manager whose edit token has never been issued
(`edit_token = ""`) and whose timestamp is fresh (elapsed 10 s of 1800 s),
`get_edit_token` performs a refresh but `get_edit_cookie` performs none, so
the two accessors do not share one staleness condition and
`get_edit_cookie` does not refresh on a never-issued token. -/
theorem C1_counterexample :
    (get_edit_token 10 10 (FetchResult.ok "new" []) (mkLogin "" 0 1800)).refreshes = 1
    ∧ (get_edit_cookie 10 10 (FetchResult.ok "new" []) (mkLogin "" 0 1800)).refreshes = 0 := by
  decide

/-- C1, amended: `get_edit_cookie` refreshes exactly when the elapsed time
strictly exceeds the renew period — it omits the never-issued check of
`get_edit_token`; once a token has been issued (non-empty), the two
accessors refresh under the same condition. -/
theorem C1_cookie_refresh_condition (l : Login) (now tAfter : Int) (resp : FetchResult) :
    ((get_edit_cookie now tAfter resp l).refreshes =
      if now - l.instantiation_time > l.token_renew_period then 1 else 0)
    ∧ (l.edit_token ≠ "" →
      (get_edit_cookie now tAfter resp l).refreshes =
        (get_edit_token now tAfter resp l).refreshes) := by
  refine ⟨?_, ?_⟩
  · rw [get_edit_cookie_refreshes]
    unfold cookie_stale
    by_cases h : now - l.instantiation_time > l.token_renew_period <;> simp [h]
  · intro hne
    rw [get_edit_cookie_refreshes, get_edit_token_refreshes, token_stale_of_issued l now hne]

/-- C1, witness for the amended theorem at a concrete issued-token state. -/
theorem C1_witness :
    (get_edit_cookie 10 10 (FetchResult.ok "new" []) (mkLogin "tok" 0 1800)).refreshes =
      (get_edit_token 10 10 (FetchResult.ok "new" []) (mkLogin "tok" 0 1800)).refreshes :=
  (C1_cookie_refresh_condition (mkLogin "tok" 0 1800) 10 10 (FetchResult.ok "new" [])).2
    (by decide)

/-- C2, counterexample: at the exact boundary t1 = t0 + T (token issued at
0, renew period 1800, call at 1800) the code performs no refresh — the
staleness comparison at line 182 is strict — contradicting the claim that a
refresh occurs whenever t1 - t0 ≥ T. -/
theorem C2_counterexample :
    (get_edit_token 1800 1800 (FetchResult.ok "new" []) (mkLogin "tok" 0 1800)).refreshes = 0
    ∧ (get_edit_token 1800 1800 (FetchResult.ok "new" []) (mkLogin "tok" 0 1800)).result =
        .ok "tok" := by
  decide

/-- C2, amended: for a previously issued token stamped at t0 with renew
period T, `get_edit_token` at t1 performs exactly one refresh when
t1 - t0 > T (strictly), and none when t1 - t0 ≤ T; in particular no refresh
occurs at the exact boundary t1 = t0 + T. -/
theorem C2_strict_staleness (l : Login) (now tAfter : Int) (resp : FetchResult)
    (htok : l.edit_token ≠ "") :
    (now - l.instantiation_time > l.token_renew_period →
      (get_edit_token now tAfter resp l).refreshes = 1)
    ∧ (now - l.instantiation_time ≤ l.token_renew_period →
      (get_edit_token now tAfter resp l).refreshes = 0) := by
  constructor
  · intro h
    rw [get_edit_token_refreshes]
    have hst : token_stale l now = true := by
      unfold token_stale
      simp [h]
    rw [if_pos hst]
  · intro h
    rw [get_edit_token_refreshes]
    have hst : token_stale l now = false := by
      unfold token_stale
      simp [beq_eq_false_iff_ne.mpr htok, not_lt.mpr h]
    rw [if_neg (by simp [hst])]

/-- C2, witness: one refresh strictly past the boundary. -/
theorem C2_witness :
    (get_edit_token 1801 1801 (FetchResult.ok "new" []) (mkLogin "tok" 0 1800)).refreshes = 1 :=
  (C2_strict_staleness (mkLogin "tok" 0 1800) 1801 1801 (FetchResult.ok "new" [])
    (by decide)).1 (by decide)

/-- C4: when the refresh attempted inside `get_edit_token` or
`get_edit_cookie` fails — the GET raises, or the `csrftoken` field is
absent — the accessor raises and leaves both the stored edit token and its
timestamp unchanged. -/
theorem C4_state_unchanged_on_failed_refresh (l : Login) (now tAfter : Int)
    (resp : FetchResult)
    (hfail : resp = .transportError ∨ ∃ cs, resp = .missingField cs) :
    (token_stale l now = true →
      (∃ e, (get_edit_token now tAfter resp l).result = .err e)
      ∧ (get_edit_token now tAfter resp l).state.edit_token = l.edit_token
      ∧ (get_edit_token now tAfter resp l).state.instantiation_time = l.instantiation_time)
    ∧ (cookie_stale l now = true →
      (∃ e, (get_edit_cookie now tAfter resp l).result = .err e)
      ∧ (get_edit_cookie now tAfter resp l).state.edit_token = l.edit_token
      ∧ (get_edit_cookie now tAfter resp l).state.instantiation_time = l.instantiation_time) := by
  constructor
  · intro hstale
    rcases hfail with h | ⟨cs, h⟩
    · subst h
      refine ⟨⟨.requestError, ?_⟩, ?_, ?_⟩ <;>
        simp [get_edit_token, generate_edit_credentials, hstale]
    · subst h
      refine ⟨⟨.keyError "csrftoken", ?_⟩, ?_, ?_⟩ <;>
        simp [get_edit_token, generate_edit_credentials, hstale]
  · intro hstale
    rcases hfail with h | ⟨cs, h⟩
    · subst h
      refine ⟨⟨.requestError, ?_⟩, ?_, ?_⟩ <;>
        simp [get_edit_cookie, generate_edit_credentials, hstale]
    · subst h
      refine ⟨⟨.keyError "csrftoken", ?_⟩, ?_, ?_⟩ <;>
        simp [get_edit_cookie, generate_edit_credentials, hstale]

/-- C4, witness: a stale state with a transport failure. -/
theorem C4_witness :
    (∃ e, (get_edit_token 2000 2000 FetchResult.transportError
        (mkLogin "tok" 0 1800)).result = .err e)
    ∧ (get_edit_token 2000 2000 FetchResult.transportError
        (mkLogin "tok" 0 1800)).state.edit_token = (mkLogin "tok" 0 1800).edit_token
    ∧ (get_edit_token 2000 2000 FetchResult.transportError
        (mkLogin "tok" 0 1800)).state.instantiation_time =
        (mkLogin "tok" 0 1800).instantiation_time :=
  (C4_state_unchanged_on_failed_refresh (mkLogin "tok" 0 1800) 2000 2000
    FetchResult.transportError (Or.inl rfl)).1 (by decide)

/-- C7: a manager holding a non-empty edit token issued at t0 with renew
period T, asked for the token at any t1 < t0 + T, performs no refresh,
returns the stored token string, and leaves the state untouched. -/
theorem C7_no_refresh_within_window (l : Login) (now tAfter : Int) (resp : FetchResult)
    (htok : l.edit_token ≠ "")
    (h : now < l.instantiation_time + l.token_renew_period) :
    get_edit_token now tAfter resp l = ⟨l, .ok l.edit_token, 0⟩ := by
  unfold get_edit_token
  have hst : token_stale l now = false := by
    unfold token_stale
    have h2 : ¬ (now - l.instantiation_time > l.token_renew_period) := by omega
    simp [beq_eq_false_iff_ne.mpr htok, h2]
  rw [if_neg (by simp [hst])]

/-- C7, witness: within the window (t1 = 100 < 0 + 1800) the stored token
comes back unchanged with no refresh. -/
theorem C7_witness :
    get_edit_token 100 100 (FetchResult.ok "new" []) (mkLogin "tok" 0 1800) =
      ⟨mkLogin "tok" 0 1800, .ok "tok", 0⟩ :=
  C7_no_refresh_within_window (mkLogin "tok" 0 1800) 100 100 (FetchResult.ok "new" [])
    (by decide) (by decide)

/-- C3, counterexample: a refresh triggered by `continue_oauth` replaces the
edit-token string but leaves `instantiation_time` at its construction value
(0) — `continue_oauth` never samples the clock — so the stored timestamp
cannot equal the time at which the new token was obtained, and
token and timestamp are not replaced in a single step. -/
theorem C3_counterexample :
    (continue_oauth ⟨["rt1"], ⟨"ak", "as"⟩⟩ "unused"
      (FetchResult.ok "newtok" [("sess", "1")]) (mkOAuthLogin "rt1" 0 1800)
      (some (.bytes "https://cb?oauth_verifier=v"))).result = .ok ()
    ∧ (continue_oauth ⟨["rt1"], ⟨"ak", "as"⟩⟩ "unused"
      (FetchResult.ok "newtok" [("sess", "1")]) (mkOAuthLogin "rt1" 0 1800)
      (some (.bytes "https://cb?oauth_verifier=v"))).state.edit_token = "newtok"
    ∧ (continue_oauth ⟨["rt1"], ⟨"ak", "as"⟩⟩ "unused"
      (FetchResult.ok "newtok" [("sess", "1")]) (mkOAuthLogin "rt1" 0 1800)
      (some (.bytes "https://cb?oauth_verifier=v"))).state.instantiation_time = 0 := by
  refine ⟨rfl, rfl, rfl⟩

/-- C3, amended: `generate_edit_credentials` replaces only the token string
(the timestamp is untouched); the timestamp is updated separately, by
`get_edit_token`/`get_edit_cookie` after a refresh they themselves trigger,
while refreshes run by `continue_oauth` (and by construction) leave the
timestamp at the construction-time sample. -/
theorem C3_timestamp_updated_separately (l : Login) (tok : String) (cs : Cookies)
    (now tAfter : Int) (hs : HandshakeEnv) (ii : String) (d : Option PyStr)
    (tf : FetchResult) :
    ((generate_edit_credentials (.ok tok cs) l).1.edit_token = tok
      ∧ (generate_edit_credentials (.ok tok cs) l).1.instantiation_time
          = l.instantiation_time)
    ∧ (token_stale l now = true →
        (get_edit_token now tAfter (.ok tok cs) l).state.instantiation_time = tAfter)
    ∧ (continue_oauth hs ii tf l d).state.instantiation_time = l.instantiation_time := by
  refine ⟨⟨rfl, rfl⟩, ?_, continue_oauth_time hs ii tf l d⟩
  intro hstale
  simp [get_edit_token, generate_edit_credentials, hstale]

/-- C3, witness for the amended theorem: an accessor-triggered refresh
stamps the post-fetch time. -/
theorem C3_witness :
    (get_edit_token 2000 2500 (FetchResult.ok "t2" [])
      (mkLogin "t1" 0 1800)).state.instantiation_time = 2500 :=
  (C3_timestamp_updated_separately (mkLogin "t1" 0 1800) "t2" [] 2000 2500
    ⟨[], ⟨"", ""⟩⟩ "" none FetchResult.transportError).2.1 (by decide)

/-- C9: when `oauth_callback_data` is absent the callback URL is read from
the console as a `str` and then split with the `bytes` separator `b'?'`,
which raises `TypeError` before any handshake exchange or token fetch; a
call can only return normally when the caller supplied `oauth_callback_data`
as non-empty `bytes`. -/
theorem C9_interactive_path_type_error (hs : HandshakeEnv) (ii : String)
    (tf : FetchResult) (l : Login) :
    (∀ d, pyFalsy d = true →
      (continue_oauth hs ii tf l d).result =
        .err (.typeError "must be str or None, not bytes")
      ∧ (continue_oauth hs ii tf l d).refreshes = 0
      ∧ (continue_oauth hs ii tf l d).hs = hs)
    ∧ (∀ d, (continue_oauth hs ii tf l d).result = .ok () →
        ∃ b, d = some (.bytes b) ∧ b ≠ "") := by
  constructor
  · intro d hf
    have hres : resolve_response_qs d ii = .str ii := by
      match d with
      | none => rfl
      | some v => simp [resolve_response_qs, hf]
    refine ⟨?_, ?_, ?_⟩ <;>
      simp [continue_oauth, hres, split_bytes_last]
  · intro d hok
    match d with
    | none =>
        simp [continue_oauth, resolve_response_qs, split_bytes_last] at hok
    | some (.str s) =>
        by_cases hse : s = "" <;>
          simp [continue_oauth, resolve_response_qs, pyFalsy, split_bytes_last, hse] at hok
    | some (.bytes b) =>
        by_cases hbe : b = ""
        · simp [continue_oauth, resolve_response_qs, pyFalsy, split_bytes_last, hbe] at hok
        · exact ⟨b, rfl, hbe⟩

/-- C9, witness: a concrete `bytes` callback completes, so the completion
premise of the second conjunct is satisfiable. -/
theorem C9_witness :
    ∃ b, (some (PyStr.bytes "https://cb?oauth_verifier=v") : Option PyStr) =
        some (.bytes b) ∧ b ≠ "" :=
  (C9_interactive_path_type_error ⟨["rt1"], ⟨"ak", "as"⟩⟩ "" (FetchResult.ok "tok" [])
      (mkOAuthLogin "rt1" 0 1800)).2
    (some (.bytes "https://cb?oauth_verifier=v")) (by decide)

/-- C8: once a `continue_oauth` call has completed successfully — consuming
the request token at the handshake provider — a second call with the same
callback data is rejected: it surfaces `HandshakeError` from the provider,
performs no token refresh, and leaves the provider state as it was. -/
theorem C8_second_complete_rejected (hs : HandshakeEnv) (ii tok : String)
    (cs : Cookies) (l : Login) (oi : OAuthInit) (b : String) (r1 : OAuthCall)
    (hoauth : l.oauth = some oi)
    (hnodup : hs.valid_tokens.Nodup)
    (hvalid : oi.request_token ∈ hs.valid_tokens)
    (hb : b ≠ "")
    (hr1 : continue_oauth hs ii (FetchResult.ok tok cs) l (some (.bytes b)) = r1) :
    r1.result = .ok ()
    ∧ (continue_oauth r1.hs ii (FetchResult.ok tok cs) r1.state
        (some (.bytes b))).result = .err .handshakeError
    ∧ (continue_oauth r1.hs ii (FetchResult.ok tok cs) r1.state
        (some (.bytes b))).refreshes = 0
    ∧ (continue_oauth r1.hs ii (FetchResult.ok tok cs) r1.state
        (some (.bytes b))).hs = r1.hs := by
  subst hr1
  have hbb : (b == "") = false := beq_eq_false_iff_ne.mpr hb
  have hnm : oi.request_token ∉ hs.valid_tokens.erase oi.request_token :=
    hnodup.not_mem_erase
  refine ⟨?_, ?_, ?_, ?_⟩ <;>
    simp [continue_oauth, resolve_response_qs, pyFalsy, split_bytes_last,
      Handshaker.complete, generate_edit_credentials, hoauth, hbb, hvalid, hnm]

/-- C8, witness: a concrete completed handshake rejects its replay. -/
theorem C8_witness :
    (continue_oauth ⟨["rt1"], ⟨"ak", "as"⟩⟩ "" (FetchResult.ok "tok" [])
        (mkOAuthLogin "rt1" 0 1800) (some (.bytes "cb?v=1"))).result = .ok ()
    ∧ (continue_oauth
        (continue_oauth ⟨["rt1"], ⟨"ak", "as"⟩⟩ "" (FetchResult.ok "tok" [])
          (mkOAuthLogin "rt1" 0 1800) (some (.bytes "cb?v=1"))).hs ""
        (FetchResult.ok "tok" [])
        (continue_oauth ⟨["rt1"], ⟨"ak", "as"⟩⟩ "" (FetchResult.ok "tok" [])
          (mkOAuthLogin "rt1" 0 1800) (some (.bytes "cb?v=1"))).state
        (some (.bytes "cb?v=1"))).result = .err .handshakeError
    ∧ (continue_oauth
        (continue_oauth ⟨["rt1"], ⟨"ak", "as"⟩⟩ "" (FetchResult.ok "tok" [])
          (mkOAuthLogin "rt1" 0 1800) (some (.bytes "cb?v=1"))).hs ""
        (FetchResult.ok "tok" [])
        (continue_oauth ⟨["rt1"], ⟨"ak", "as"⟩⟩ "" (FetchResult.ok "tok" [])
          (mkOAuthLogin "rt1" 0 1800) (some (.bytes "cb?v=1"))).state
        (some (.bytes "cb?v=1"))).refreshes = 0
    ∧ (continue_oauth
        (continue_oauth ⟨["rt1"], ⟨"ak", "as"⟩⟩ "" (FetchResult.ok "tok" [])
          (mkOAuthLogin "rt1" 0 1800) (some (.bytes "cb?v=1"))).hs ""
        (FetchResult.ok "tok" [])
        (continue_oauth ⟨["rt1"], ⟨"ak", "as"⟩⟩ "" (FetchResult.ok "tok" [])
          (mkOAuthLogin "rt1" 0 1800) (some (.bytes "cb?v=1"))).state
        (some (.bytes "cb?v=1"))).hs =
      (continue_oauth ⟨["rt1"], ⟨"ak", "as"⟩⟩ "" (FetchResult.ok "tok" [])
        (mkOAuthLogin "rt1" 0 1800) (some (.bytes "cb?v=1"))).hs :=
  C8_second_complete_rejected ⟨["rt1"], ⟨"ak", "as"⟩⟩ "" "tok" []
    (mkOAuthLogin "rt1" 0 1800) ⟨"https://w/authorize", "rt1"⟩ "cb?v=1" _
    rfl (by decide) (by decide) (by decide) rfl

lemma generate_edit_credentials_user_agent (resp : FetchResult) (l : Login) :
    (generate_edit_credentials resp l).1.user_agent = l.user_agent := by
  cases resp <;> simp [generate_edit_credentials]

/-- Every successfully constructed instance carries the user agent chosen by
the user-agent step. -/
lemma construct_ok_user_agent (cfg : Config) (a : InitArgs) (env : InitEnv)
    (lg : Login) (hok : (Login.construct cfg a env).2.2 = .ok lg) :
    lg.user_agent = (construct_user_agent cfg a).2 := by
  unfold Login.construct construct_finish at hok
  dsimp only at hok
  repeat' split at hok
  all_goals simp_all
  all_goals first
    | (subst hok
       rfl)
    | (rename_i heq
       have h1 := congrArg (fun p => p.1.user_agent) heq
       simp [generate_edit_credentials_user_agent] at h1
       simp_all)

/-- When `user_agent` is falsy the chosen user agent is exactly the shared
config value after the step. -/
lemma construct_user_agent_shared (cfg : Config) (a : InitArgs)
    (h : truthy a.user_agent = false) :
    (construct_user_agent cfg a).2 = (construct_user_agent cfg a).1.USER_AGENT_DEFAULT := by
  unfold construct_user_agent
  rw [if_neg (by simp [h])]

/-- Sample configuration for concrete runs. -/
def cfgW : Config :=
  ⟨"https://w/api.php", "https://w/index.php", "WBI-UA"⟩

/-- Client-login constructor arguments used in witnesses (explicit
`user_agent`, so the shared config is untouched). -/
def argsClient : InitArgs :=
  { user := some "alice"
    pwd := some "secret"
    mediawiki_api_url := none
    mediawiki_index_url := none
    token_renew_period := 1800
    use_clientlogin := true
    consumer_key := none
    consumer_secret := none
    callback_url := "oob"
    user_agent := some "UA" }

/-- Environment for the failing clientlogin scenario of §8: the response
carries only an `error` block with code `badpass`. -/
def envBadpass : InitEnv :=
  { now := 0
    login_token := .ok "lt+\\"
    clientlogin_result := ⟨none, some ⟨"badpass", "Incorrect password"⟩⟩
    login_result := ⟨"Success", "alice"⟩
    token_fetch := .transportError
    handshake_init := .err .handshakeError }

/-- C5: under client login the response is handled in two shapes — a
`clientlogin` block whose status differs from "PASS" raises a `LoginError`
built from the block's `messagecode` and `message`; a response without a
`clientlogin` block raises a `LoginError` built from the `error` block's
`code` and `info`; and a `clientlogin` block with status "PASS" raises no
login error and proceeds to the edit-token fetch, whose token the instance
stores on success. -/
theorem C5_clientlogin_response_shapes (cfg : Config) (a : InitArgs) (env : InitEnv)
    (hcl : a.use_clientlogin = true)
    (hno : (truthy a.consumer_key && truthy a.consumer_secret) = false)
    (htok : ∃ t, env.login_token = .ok t) :
    (∀ cl, env.clientlogin_result.clientlogin = some cl → cl.status ≠ "PASS" →
      (Login.construct cfg a env).2.2 = .err (.loginError
        ("Login failed (" ++ cl.messagecode ++ "). Message: '" ++ cl.message ++ "'")))
    ∧ (∀ e, env.clientlogin_result.clientlogin = none →
        env.clientlogin_result.error = some e →
      (Login.construct cfg a env).2.2 = .err (.loginError
        ("Login failed (" ++ e.code ++ "). Message: '" ++ e.info ++ "'")))
    ∧ (∀ cl, env.clientlogin_result.clientlogin = some cl → cl.status = "PASS" →
        Action.edit_token_fetch ∈ (Login.construct cfg a env).2.1
        ∧ (∀ m, (Login.construct cfg a env).2.2 ≠ .err (.loginError m))
        ∧ (∀ tok cs, env.token_fetch = .ok tok cs →
            ∃ lg, (Login.construct cfg a env).2.2 = .ok lg ∧ lg.edit_token = tok)) := by
  obtain ⟨t, ht⟩ := htok
  refine ⟨?_, ?_, ?_⟩
  · intro cl hblock hst
    simp [Login.construct, hno, ht, hcl, hblock, bne_iff_ne, hst]
  · intro e hnone herr
    simp [Login.construct, hno, ht, hcl, hnone, herr]
  · intro cl hblock hst
    refine ⟨?_, ?_, ?_⟩
    · cases hf : env.token_fetch <;>
        simp [Login.construct, construct_finish, generate_edit_credentials,
          hno, ht, hcl, hblock, hst, hf]
    · intro m
      cases hf : env.token_fetch <;>
        simp [Login.construct, construct_finish, generate_edit_credentials,
          hno, ht, hcl, hblock, hst, hf]
    · intro tok cs hf
      simp [Login.construct, construct_finish, generate_edit_credentials,
        hno, ht, hcl, hblock, hst, hf]

/-- C5, witness: the §8 end-to-end scenario — clientlogin answers only
`{"error":{"code":"badpass","info":"Incorrect password"}}` and construction
fails with the corresponding `LoginError`. -/
theorem C5_witness :
    (Login.construct cfgW argsClient envBadpass).2.2 = .err (.loginError
      ("Login failed (" ++ "badpass" ++ "). Message: '" ++ "Incorrect password" ++ "'")) :=
  (C5_clientlogin_response_shapes cfgW argsClient envBadpass rfl rfl
    ⟨"lt+\\", rfl⟩).2.1 ⟨"badpass", "Incorrect password"⟩ rfl rfl

/-- C6: when both OAuth consumer credentials are supplied (truthy), the
constructor performs handshake initiation only — the single request issued
is the initiation, the stored edit token stays empty, and the redirect and
request token returned by the handshake provider are stored; when either
credential is lacking, every successful construction has issued an
edit-token fetch and stores the fetched token. -/
theorem C6_strategy_dispatch (cfg : Config) (a : InitArgs) (env : InitEnv) :
    ((truthy a.consumer_key && truthy a.consumer_secret) = true →
      (Login.construct cfg a env).2.1 = [Action.oauth_init_request]
      ∧ ∀ lg, (Login.construct cfg a env).2.2 = .ok lg →
          lg.edit_token = ""
          ∧ ∃ oi, env.handshake_init = .ok oi ∧ lg.oauth = some oi)
    ∧ ((truthy a.consumer_key && truthy a.consumer_secret) = false →
      ∀ lg, (Login.construct cfg a env).2.2 = .ok lg →
        Action.edit_token_fetch ∈ (Login.construct cfg a env).2.1
        ∧ ∃ tok cs, env.token_fetch = .ok tok cs ∧ lg.edit_token = tok) := by
  constructor
  · intro h
    cases hi : env.handshake_init with
    | err e =>
      constructor
      · simp [Login.construct, h, hi]
      · intro lg hok
        simp [Login.construct, h, hi] at hok
    | ok oi =>
      constructor
      · simp [Login.construct, h, hi]
      · intro lg hok
        simp [Login.construct, h, hi] at hok
        subst hok
        exact ⟨rfl, oi, rfl, rfl⟩
  · intro h lg hok
    cases ht : env.login_token with
    | err e => simp [Login.construct, h, ht] at hok
    | ok t =>
      cases hf : env.token_fetch with
      | transportError =>
        exfalso
        cases hcl : a.use_clientlogin
        · by_cases hres : env.login_result.result = "Success" <;>
            simp [Login.construct, construct_finish, generate_edit_credentials,
              h, ht, hcl, hf, bne_iff_ne, hres] at hok
        · match hblock : env.clientlogin_result.clientlogin with
          | some cl =>
            by_cases hst : cl.status = "PASS" <;>
              simp [Login.construct, construct_finish, generate_edit_credentials,
                h, ht, hcl, hf, hblock, bne_iff_ne, hst] at hok
          | none =>
            match herr : env.clientlogin_result.error with
            | some e =>
              simp [Login.construct, h, ht, hcl, hblock, herr] at hok
            | none =>
              simp [Login.construct, h, ht, hcl, hblock, herr] at hok
      | missingField cs =>
        exfalso
        cases hcl : a.use_clientlogin
        · by_cases hres : env.login_result.result = "Success" <;>
            simp [Login.construct, construct_finish, generate_edit_credentials,
              h, ht, hcl, hf, bne_iff_ne, hres] at hok
        · match hblock : env.clientlogin_result.clientlogin with
          | some cl =>
            by_cases hst : cl.status = "PASS" <;>
              simp [Login.construct, construct_finish, generate_edit_credentials,
                h, ht, hcl, hf, hblock, bne_iff_ne, hst] at hok
          | none =>
            match herr : env.clientlogin_result.error with
            | some e =>
              simp [Login.construct, h, ht, hcl, hblock, herr] at hok
            | none =>
              simp [Login.construct, h, ht, hcl, hblock, herr] at hok
      | ok tok cs =>
        refine ⟨?_, tok, cs, rfl, ?_⟩
        · cases hcl : a.use_clientlogin
          · by_cases hres : env.login_result.result = "Success" <;>
              simp [Login.construct, construct_finish, generate_edit_credentials,
                h, ht, hcl, hf, bne_iff_ne, hres] at hok ⊢
          · match hblock : env.clientlogin_result.clientlogin with
            | some cl =>
              by_cases hst : cl.status = "PASS" <;>
                simp [Login.construct, construct_finish, generate_edit_credentials,
                  h, ht, hcl, hf, hblock, bne_iff_ne, hst] at hok ⊢
            | none =>
              match herr : env.clientlogin_result.error with
              | some e =>
                simp [Login.construct, h, ht, hcl, hblock, herr] at hok
              | none =>
                simp [Login.construct, h, ht, hcl, hblock, herr] at hok
        · cases hcl : a.use_clientlogin
          · by_cases hres : env.login_result.result = "Success" <;>
              simp [Login.construct, construct_finish, generate_edit_credentials,
                h, ht, hcl, hf, bne_iff_ne, hres] at hok
            subst hok
            rfl
          · match hblock : env.clientlogin_result.clientlogin with
            | some cl =>
              by_cases hst : cl.status = "PASS"
              · simp [Login.construct, construct_finish, generate_edit_credentials,
                  h, ht, hcl, hf, hblock, bne_iff_ne, hst] at hok
                subst hok
                rfl
              · simp [Login.construct, construct_finish, generate_edit_credentials,
                  h, ht, hcl, hf, hblock, bne_iff_ne, hst] at hok
            | none =>
              match herr : env.clientlogin_result.error with
              | some e =>
                simp [Login.construct, h, ht, hcl, hblock, herr] at hok
              | none =>
                simp [Login.construct, h, ht, hcl, hblock, herr] at hok

/-- OAuth constructor arguments used in witnesses. -/
def argsOAuth : InitArgs :=
  { user := none
    pwd := none
    mediawiki_api_url := none
    mediawiki_index_url := none
    token_renew_period := 1800
    use_clientlogin := false
    consumer_key := some "ck"
    consumer_secret := some "cs"
    callback_url := "oob"
    user_agent := some "UA" }

/-- Environment whose non-OAuth collaborators all fail, so any login or
token request would be observable. -/
def envOAuth : InitEnv :=
  { now := 0
    login_token := .err .requestError
    clientlogin_result := ⟨none, none⟩
    login_result := ⟨"Failed", ""⟩
    token_fetch := .transportError
    handshake_init := .ok ⟨"https://w/authorize", "rt1"⟩ }

/-- C6, witness: with both consumer credentials present only the initiation
request is issued and the instance keeps an empty edit token. -/
theorem C6_witness :
    (Login.construct cfgW argsOAuth envOAuth).2.1 = [Action.oauth_init_request]
    ∧ ∀ lg, (Login.construct cfgW argsOAuth envOAuth).2.2 = .ok lg →
        lg.edit_token = ""
        ∧ ∃ oi, envOAuth.handshake_init = .ok oi ∧ lg.oauth = some oi :=
  (C6_strategy_dispatch cfgW argsOAuth envOAuth).1 (by decide)

/-- C10: with `user_agent` omitted (falsy) and a non-empty user name whose
casefolded form is not already contained in the shared
`USER_AGENT_DEFAULT`, construction mutates that shared config value in
place by appending " (User:<user>)"; when the name is already contained, or
`user_agent` is supplied, the shared value is untouched. The returned
configuration is what every later construction in the process reads, and an
instance built with `user_agent` omitted adopts exactly the shared value as
mutated. -/
theorem C10_user_agent_mutation (cfg : Config) (a : InitArgs) (env : InitEnv) :
    (truthy a.user_agent = false → ∀ u, a.user = some u → u ≠ "" →
      pyIn (casefold u) (casefold cfg.USER_AGENT_DEFAULT) = false →
      (Login.construct cfg a env).1 =
        { cfg with USER_AGENT_DEFAULT :=
            cfg.USER_AGENT_DEFAULT ++ " (User:" ++ u ++ ")" })
    ∧ (truthy a.user_agent = false → ∀ u, a.user = some u →
        pyIn (casefold u) (casefold cfg.USER_AGENT_DEFAULT) = true →
        (Login.construct cfg a env).1 = cfg)
    ∧ (truthy a.user_agent = true → (Login.construct cfg a env).1 = cfg)
    ∧ (truthy a.user_agent = false →
        ∀ lg, (Login.construct cfg a env).2.2 = .ok lg →
          lg.user_agent = (Login.construct cfg a env).1.USER_AGENT_DEFAULT) := by
  refine ⟨?_, ?_, ?_, ?_⟩
  · intro hua u hu hne hnotin
    rw [construct_config]
    unfold construct_user_agent
    rw [if_neg (by simp [hua])]
    simp [hu, bne_iff_ne, hne, hnotin]
  · intro hua u hu hin
    rw [construct_config]
    unfold construct_user_agent
    rw [if_neg (by simp [hua])]
    simp [hu, hin]
  · intro hua
    rw [construct_config]
    unfold construct_user_agent
    rw [if_pos hua]
  · intro hua lg hok
    rw [construct_config, construct_ok_user_agent cfg a env lg hok,
      construct_user_agent_shared cfg a hua]

/-- Password-login arguments with `user_agent` omitted, for the C10
witness. -/
def argsNoUA : InitArgs :=
  { user := some "alice"
    pwd := some "secret"
    mediawiki_api_url := none
    mediawiki_index_url := none
    token_renew_period := 1800
    use_clientlogin := false
    consumer_key := none
    consumer_secret := none
    callback_url := "oob"
    user_agent := none }

/-- C10, witness: "alice" is not contained in "WBI-UA", so the shared
user-agent default comes back with " (User:alice)" appended. -/
theorem C10_witness :
    (Login.construct cfgW argsNoUA envBadpass).1 =
      { cfgW with USER_AGENT_DEFAULT :=
          cfgW.USER_AGENT_DEFAULT ++ " (User:" ++ "alice" ++ ")" } :=
  (C10_user_agent_mutation cfgW argsNoUA envBadpass).1 rfl "alice" rfl
    (by decide) (by decide)

end WbiLogin
